import Mathlib

/-!
Verification of the reticulum-meshchat web bridge (`src/web.py`).

Shallow embedding of the components the claims are about:

* byte strings are `List Nat` (each entry a byte value);
* a Python `str` obtained by UTF-8 decoding is represented by its UTF-8
  byte sequence (UTF-8 decoding is injective, so this is faithful), and a
  decode that raises `UnicodeDecodeError` is `Option.none`;
* Python `float` arithmetic on message progress is idealised as `ℚ`;
* the SQLite ledger is a list of rows plus an autoincrement counter;
* the aiohttp websocket registry is a list of clients, each tagged with
  whether `send_str` raises for it, and effects are traces of events.
-/

/-- One byte of a Python `bytes` value. -/
abbrev Byte := Nat

/-- Is `b` a UTF-8 continuation byte (`0x80..0xBF`)? -/
def isUtf8Cont (b : Byte) : Bool := 0x80 ≤ b && b ≤ 0xBF

/-- Fuel-driven worker for `isValidUtf8`; the fuel dominates the length of
the byte list, so calling it with `bs.length` fuel checks all of `bs`. -/
def utf8Go : Nat → List Byte → Bool
  | _, [] => true
  | 0, _ :: _ => false
  | fuel + 1, b :: rest =>
    if b ≤ 0x7F then utf8Go fuel rest
    else if 0xC2 ≤ b && b ≤ 0xDF then
      match rest with
      | c1 :: rest1 => isUtf8Cont c1 && utf8Go fuel rest1
      | [] => false
    else if b = 0xE0 then
      match rest with
      | c1 :: c2 :: rest2 =>
        (0xA0 ≤ c1 && c1 ≤ 0xBF) && isUtf8Cont c2 && utf8Go fuel rest2
      | _ => false
    else if (0xE1 ≤ b && b ≤ 0xEC) || b = 0xEE || b = 0xEF then
      match rest with
      | c1 :: c2 :: rest2 => isUtf8Cont c1 && isUtf8Cont c2 && utf8Go fuel rest2
      | _ => false
    else if b = 0xED then
      match rest with
      | c1 :: c2 :: rest2 =>
        (0x80 ≤ c1 && c1 ≤ 0x9F) && isUtf8Cont c2 && utf8Go fuel rest2
      | _ => false
    else if b = 0xF0 then
      match rest with
      | c1 :: c2 :: c3 :: rest3 =>
        (0x90 ≤ c1 && c1 ≤ 0xBF) && isUtf8Cont c2 && isUtf8Cont c3 && utf8Go fuel rest3
      | _ => false
    else if 0xF1 ≤ b && b ≤ 0xF3 then
      match rest with
      | c1 :: c2 :: c3 :: rest3 =>
        isUtf8Cont c1 && isUtf8Cont c2 && isUtf8Cont c3 && utf8Go fuel rest3
      | _ => false
    else if b = 0xF4 then
      match rest with
      | c1 :: c2 :: c3 :: rest3 =>
        (0x80 ≤ c1 && c1 ≤ 0x8F) && isUtf8Cont c2 && isUtf8Cont c3 && utf8Go fuel rest3
      | _ => false
    else false

/-- Strict UTF-8 validity of a byte sequence, as checked by Python's
`bytes.decode("utf-8")`: rejects overlong forms, surrogates and code
points above `U+10FFFF`. -/
def isValidUtf8 (bs : List Byte) : Bool := utf8Go bs.length bs

/-- Python's `bs.decode("utf-8")`: the decoded `str` (represented by its
byte sequence) when `bs` is valid UTF-8, `none` when the call raises. -/
def decodeUtf8 (bs : List Byte) : Option (List Byte) :=
  if isValidUtf8 bs then some bs else none

example : decodeUtf8 [0x41, 0x42] = some [0x41, 0x42] := by decide
example : decodeUtf8 [0xFF] = none := by decide
example : decodeUtf8 [0xC3, 0xA9] = some [0xC3, 0xA9] := by decide
example : decodeUtf8 [0xC3] = none := by decide

/-- Python's banker's rounding of a rational to the nearest integer:
round half to even, as `round` does on floats (idealised over `ℚ`). -/
def roundHalfEven (q : ℚ) : ℤ :=
  let f : ℤ := ⌊q⌋
  let r : ℚ := q - f
  if r < 1/2 then f
  else if r > 1/2 then f + 1
  else if f % 2 = 0 then f else f + 1

/-- Python's `round(x, 2)` on a rational: round to two decimal places,
half to even. -/
def pyRound2 (x : ℚ) : ℚ := (roundHalfEven (x * 100) : ℚ) / 100

example : pyRound2 (4567/100) = 4567/100 := by
  unfold pyRound2 roundHalfEven
  norm_num

/-! ## LXMF message model (`LXMF.LXMessage`, external library data)

Hash fields are modelled directly as the hex strings `.hex()` produces
(hex encoding is injective). A `title`/`content` is the raw byte string
the library hands over; `web.py` decodes both as UTF-8. -/

/-- `LXMF.FIELD_FILE_ATTACHMENTS` (key `0x05` in the LXMF library). -/
def FIELD_FILE_ATTACHMENTS : Nat := 0x05

/-- `LXMF.FIELD_IMAGE` (key `0x06` in the LXMF library). -/
def FIELD_IMAGE : Nat := 0x06

/-- `LXMF.LXMessage` state constants (external library values). -/
def LXMESSAGE_DRAFT : Nat := 0x00

def LXMESSAGE_OUTBOUND : Nat := 0x01

def LXMESSAGE_SENDING : Nat := 0x02

def LXMESSAGE_SENT : Nat := 0x04

def LXMESSAGE_DELIVERED : Nat := 0x08

def LXMESSAGE_FAILED : Nat := 0xFF

/-- A value stored under a field key of an LXMF message. Only the two
shapes `web.py` reads are modelled: a file-attachment list of
`(file_name, file_bytes)` pairs, and an `(image_type, image_bytes)`
pair. -/
inductive FieldVal where
  | fileAttachments (files : List (String × List Byte))
  | image (imageType : String) (imageBytes : List Byte)
deriving DecidableEq, Repr

/-- An LXMF message as handed to the callbacks in `web.py`. -/
structure LXMessage where
  hash : String
  source_hash : String
  destination_hash : String
  incoming : Bool
  state : Nat
  progress : ℚ
  title : List Byte
  content : List Byte
  fields : List (Nat × FieldVal)
  timestamp : ℚ
deriving DecidableEq, Repr

/-- One entry of the `file_attachments` list in the websocket dict; the
base64 text of `file_bytes` is represented by the raw bytes (base64 is
injective). -/
structure FileAttachmentDict where
  file_name : String
  file_bytes : List Byte
deriving DecidableEq, Repr

/-- The `image` entry of the websocket dict. -/
structure ImageDict where
  image_type : String
  image_bytes : List Byte
deriving DecidableEq, Repr

/-- The `fields` dict built by `convert_lxmf_message_to_dict`: keys
`"file_attachments"` and `"image"`, each present only when the message
carried the matching LXMF field. -/
structure FieldsDict where
  file_attachments : Option (List FileAttachmentDict) := none
  image : Option ImageDict := none
deriving DecidableEq, Repr

/-- The loop over `message_fields` in `convert_lxmf_message_to_dict`
(`web.py` lines 439-469): later entries for the same key overwrite
earlier ones, mirroring repeated dict-key assignment. -/
def convert_fields (mf : List (Nat × FieldVal)) : FieldsDict :=
  mf.foldl
    (fun acc kv =>
      if kv.1 = FIELD_FILE_ATTACHMENTS then
        match kv.2 with
        | .fileAttachments files =>
          { acc with
            file_attachments :=
              some (files.map (fun f => { file_name := f.1, file_bytes := f.2 })) }
        | _ => acc
      else if kv.1 = FIELD_IMAGE then
        match kv.2 with
        | .image t b => { acc with image := some { image_type := t, image_bytes := b } }
        | _ => acc
      else acc)
    {}

/-- `convert_lxmf_state_to_string` (`web.py` lines 488-505). -/
def convert_lxmf_state_to_string (m : LXMessage) : String :=
  if m.state = LXMESSAGE_DRAFT then "draft"
  else if m.state = LXMESSAGE_OUTBOUND then "outbound"
  else if m.state = LXMESSAGE_SENDING then "sending"
  else if m.state = LXMESSAGE_SENT then "sent"
  else if m.state = LXMESSAGE_DELIVERED then "delivered"
  else if m.state = LXMESSAGE_FAILED then "failed"
  else "unknown"

/-- The dict returned by `convert_lxmf_message_to_dict`. -/
structure MessageDict where
  hash : String
  source_hash : String
  destination_hash : String
  is_incoming : Bool
  state : String
  progress : ℚ
  title : List Byte
  content : List Byte
  fields : FieldsDict
  timestamp : ℚ
deriving DecidableEq, Repr

/-- `convert_lxmf_message_to_dict` (`web.py` lines 437-485): builds the
fields dict, converts the 0-1 progress into a percentage rounded to two
decimals, and decodes title and content as UTF-8; a failing decode
raises (`none`). -/
def convert_lxmf_message_to_dict (m : LXMessage) : Option MessageDict :=
  match decodeUtf8 m.title, decodeUtf8 m.content with
  | some t, some c =>
    some
      { hash := m.hash
        source_hash := m.source_hash
        destination_hash := m.destination_hash
        is_incoming := m.incoming
        state := convert_lxmf_state_to_string m
        progress := pyRound2 (m.progress * 100)
        title := t
        content := c
        fields := convert_fields m.fields
        timestamp := m.timestamp }
  | _, _ => none

/-! ## Persistent message ledger -/

/-- One row of the `lxmf_messages` table.

Modelled from the spec: the table itself is declared in `database.py`,
which is not part of the sources here; the spec gives the schema as
hash(unique), source_hash, destination_hash, is_incoming(bool),
state(string enum), progress(float), title(text), content(text),
fields(serialized blob), timestamp(protocol time), created_at,
updated_at, with an autoincrement integer `id` used for ordering. The
serialized `fields` blob is represented by the `FieldsDict` it
serializes (JSON serialization is injective on these dicts). -/
structure Row where
  id : Nat
  hash : String
  source_hash : String
  destination_hash : String
  is_incoming : Bool
  state : String
  progress : ℚ
  title : List Byte
  content : List Byte
  fields : FieldsDict
  timestamp : ℚ
  created_at : Nat
  updated_at : Nat
deriving DecidableEq, Repr

/-- The SQLite ledger: rows in insertion order plus the autoincrement
counter. Modelled from the spec: `database.py` (not in the sources)
declares `hash` unique, so at most one row per hash ever exists. -/
structure Ledger where
  rows : List Row
  next_id : Nat
deriving DecidableEq, Repr

/-- `db_upsert_lxmf_message` (`web.py` lines 558-581): convert the
message to its dict (UTF-8 decoding may raise, giving `none`), then
`INSERT ... ON CONFLICT (hash) DO UPDATE`: a fresh row when no row
carries the hash, otherwise every listed column of the existing row is
overwritten; `created_at` is not in the update set and keeps its value,
while `updated_at` is set to the current time `now`. -/
def db_upsert_lxmf_message (db : Ledger) (now : Nat) (m : LXMessage) : Option Ledger :=
  (convert_lxmf_message_to_dict m).map fun d =>
    if db.rows.any (fun r => r.hash == d.hash) then
      { db with
        rows := db.rows.map fun r =>
          if r.hash == d.hash then
            { r with
              source_hash := d.source_hash
              destination_hash := d.destination_hash
              is_incoming := d.is_incoming
              state := d.state
              progress := d.progress
              title := d.title
              content := d.content
              fields := d.fields
              timestamp := d.timestamp
              updated_at := now }
          else r }
    else
      { rows :=
          db.rows ++
            [{ id := db.next_id
               hash := d.hash
               source_hash := d.source_hash
               destination_hash := d.destination_hash
               is_incoming := d.is_incoming
               state := d.state
               progress := d.progress
               title := d.title
               content := d.content
               fields := d.fields
               timestamp := d.timestamp
               created_at := now
               updated_at := now }]
        next_id := db.next_id + 1 }

/-- The plain `database.LxmfMessage(...).save()` INSERT performed by
`on_lxmf_delivery` (`web.py` lines 516-528): no conflict clause, so a
pre-existing row with the same (unique) hash makes the INSERT raise an
integrity error (`none`). -/
def db_insert_lxmf_message (db : Ledger) (now : Nat) (d : MessageDict) : Option Ledger :=
  if db.rows.any (fun r => r.hash == d.hash) then none
  else
    some
      { rows :=
          db.rows ++
            [{ id := db.next_id
               hash := d.hash
               source_hash := d.source_hash
               destination_hash := d.destination_hash
               is_incoming := d.is_incoming
               state := d.state
               progress := d.progress
               title := d.title
               content := d.content
               fields := d.fields
               timestamp := d.timestamp
               created_at := now
               updated_at := now }]
        next_id := db.next_id + 1 }

/-! ## Event fan-out hub -/

/-- A peer entry of the `known_peers` event. -/
structure KnownPeerDict where
  destination_hash : String
  app_data : Option (List Byte)
  last_announce_timestamp : ℚ
deriving DecidableEq, Repr

/-- A websocket event, tagged the way `web.py` tags its JSON objects. -/
inductive Event where
  | config (display_name : String) (identity_hash : String) (lxmf_address_hash : String)
  | known_peers (peers : List KnownPeerDict)
  | announce (destination_hash : String) (app_data : Option (List Byte))
      (last_announce_timestamp : ℚ)
  | lxmf_delivery (m : MessageDict)
  | lxmf_message_state_updated (m : MessageDict)
  | lxmf_outbound_message_created (m : MessageDict)
deriving DecidableEq, Repr

/-- A registered viewer session: its transport id and whether its
`send_str` raises when awaited. -/
structure Client where
  id : Nat
  fails : Bool
deriving DecidableEq, Repr

/-- `websocket_broadcast` (`web.py` lines 387-389): iterate the client
registry in order and `await send_str` for each; the result is the list
of `(client id, event)` deliveries that happened, and `some i` when
client `i`'s send raised, in which case the loop stops there and the
exception propagates to the caller. -/
def websocket_broadcast (clients : List Client) (e : Event) :
    List (Nat × Event) × Option Nat :=
  match clients with
  | [] => ([], none)
  | c :: rest =>
    if c.fails then ([], some c.id)
    else
      let (sent, err) := websocket_broadcast rest e
      ((c.id, e) :: sent, err)

/-- `convert_app_data_to_string` (`web.py` lines 423-434): UTF-8 decode
when app data is present, `None` when absent or when decoding raises. -/
def convert_app_data_to_string (app_data : Option (List Byte)) : Option (List Byte) :=
  match app_data with
  | some bs => decodeUtf8 bs
  | none => none

/-- One entry of `RNS.Identity.known_destinations` together with the
app data `RNS.Identity.recall_app_data` returns for it (external RNS
announce cache). -/
structure KnownDestination where
  destination_hash : String
  last_announce_timestamp : ℚ
  app_data : Option (List Byte)
deriving DecidableEq, Repr

/-- The state of the `ReticulumWebChat` instance that the fan-out layer
reads: the client registry, the config values, and the RNS announce
cache it snapshots for `known_peers`. -/
structure ServerState where
  websocket_clients : List Client
  display_name : String
  identity_hash : String
  lxmf_address_hash : String
  known_destinations : List KnownDestination
deriving DecidableEq, Repr

/-- `send_config_to_websocket_clients` (`web.py` lines 392-400). -/
def send_config_to_websocket_clients (st : ServerState) :
    List (Nat × Event) × Option Nat :=
  websocket_broadcast st.websocket_clients
    (.config st.display_name st.identity_hash st.lxmf_address_hash)

/-- The `known_peers` list built by `send_known_peers_to_websocket_clients`
(`web.py` lines 405-414). -/
def known_peers_list (st : ServerState) : List KnownPeerDict :=
  st.known_destinations.map fun kd =>
    { destination_hash := kd.destination_hash
      app_data := convert_app_data_to_string kd.app_data
      last_announce_timestamp := kd.last_announce_timestamp }

/-- `send_known_peers_to_websocket_clients` (`web.py` lines 403-420). -/
def send_known_peers_to_websocket_clients (st : ServerState) :
    List (Nat × Event) × Option Nat :=
  websocket_broadcast st.websocket_clients (.known_peers (known_peers_list st))

/-! ## The websocket route (`/ws`) as an observable step trace -/

/-- An observable step of the `/ws` route handler. -/
inductive Step where
  | registered (c : Nat)
  | sent (recipient : Nat) (e : Event)
  | processed_input (c : Nat)
  | deregistered (c : Nat)
deriving DecidableEq, Repr

/-- The `async for` message loop of the `/ws` route (`web.py` lines
158-173): each received frame is handed to
`on_websocket_data_received` inside a try/except that swallows handler
errors, and on disconnect the client is removed from the registry.
`handleInput` abstracts what `on_websocket_data_received` does for one
frame (its own effects are outside this claim's scope). -/
def ws_loop (handleInput : ServerState → String → ServerState × List Step)
    (st : ServerState) (c : Client) : List String → List Step
  | [] => [Step.deregistered c.id]
  | i :: rest =>
    let (st', steps) := handleInput st i
    Step.processed_input c.id :: steps ++ ws_loop handleInput st' c rest

/-- The `/ws` route handler (`web.py` lines 141-175) as a step trace:
register the new client, broadcast the config event, broadcast the
known-peers event, then enter the message loop. An exception escaping a
broadcast (a failing client) aborts the handler. -/
def ws_route (handleInput : ServerState → String → ServerState × List Step)
    (st : ServerState) (c : Client) (inputs : List String) : List Step :=
  let st1 := { st with websocket_clients := st.websocket_clients ++ [c] }
  let (sent1, err1) := send_config_to_websocket_clients st1
  let steps1 := Step.registered c.id :: sent1.map fun se => Step.sent se.1 se.2
  if err1.isSome then steps1
  else
    let (sent2, err2) := send_known_peers_to_websocket_clients st1
    let steps2 := steps1 ++ sent2.map fun se => Step.sent se.1 se.2
    if err2.isSome then steps2
    else steps2 ++ ws_loop handleInput st1 c inputs

/-- The event a step delivers to client `cid`, when it is one. -/
def sentTo (cid : Nat) : Step → Option Event
  | .sent r e => if r = cid then some e else none
  | _ => none

/-- Is this step the processing of an input frame from client `cid`? -/
def isInputOf (cid : Nat) : Step → Bool
  | .processed_input c => c == cid
  | _ => false

/-! ## Nomadnet download state machine -/

/-- Which subclass of `NomadnetDownloader` is running (page or file). -/
inductive DownloadKind where
  | page
  | file
deriving DecidableEq, Repr

/-- An observable action of `NomadnetDownloader.download`. -/
inductive DownloadAction where
  | request_path (destination_hash : String)
  | link_created (destination_hash : String)
  | failure_callback (kind : DownloadKind) (reason : String)
deriving DecidableEq, Repr

/-- `NomadnetDownloader.download` (`web.py` lines 682-703): fire the
path request, then recall a cached identity (`recallIdentity` models
`RNS.Identity.recall`); when none is cached, invoke the failure
callback with `"identity not found"` and return — no waiting on the
path request, no retry, no link. Otherwise create the link to the
destination. -/
def NomadnetDownloader_download (kind : DownloadKind) (recallIdentity : String → Option Nat)
    (destination_hash : String) : List DownloadAction :=
  DownloadAction.request_path destination_hash ::
    match recallIdentity destination_hash with
    | none => [DownloadAction.failure_callback kind "identity not found"]
    | some _ => [DownloadAction.link_created destination_hash]

/-! ## The `/api/v1/lxmf-messages` endpoint -/

/-- The SELECT at `web.py` lines 198-202: rows whose source and
destination match the two query parameters in either direction, ordered
by ascending row id (oldest first). -/
def lxmf_messages_query (rows : List Row) (source_hash destination_hash : String) :
    List Row :=
  (rows.filter fun r =>
      (r.source_hash == source_hash && r.destination_hash == destination_hash) ||
      (r.destination_hash == source_hash && r.source_hash == destination_hash)).mergeSort
    fun a b => decide (a.id ≤ b.id)

/-- A JSON response of the endpoint: HTTP status, the `message` key of
an error body, and the `lxmf_messages` key of a success body. -/
structure ApiResponse where
  status : Nat
  message : Option String
  lxmf_messages : Option (List Row)
deriving DecidableEq, Repr

/-- The `/api/v1/lxmf-messages` handler (`web.py` lines 178-225):
missing `source_hash` or `destination_hash` is answered with status 422
and a message naming the parameter, before any database access. The
result carries the response, the ledger rows after the request, and how
many SELECTs ran. -/
def api_lxmf_messages (source_hash destination_hash : Option String)
    (rows : List Row) : ApiResponse × List Row × Nat :=
  match source_hash with
  | none => ({ status := 422, message := some "source_hash is required",
               lxmf_messages := none }, rows, 0)
  | some s =>
    match destination_hash with
    | none => ({ status := 422, message := some "destination_hash is required",
                 lxmf_messages := none }, rows, 0)
    | some d => ({ status := 200, message := none,
                   lxmf_messages := some (lxmf_messages_query rows s d) }, rows, 1)

/-! ## Network callbacks as guarded or unguarded boundaries -/

/-- A Python exception relevant to the callback handlers. -/
inductive PyErr where
  | unicodeDecodeError
  | integrityError
  | sendError (clientId : Nat)
deriving DecidableEq, Repr

/-- The body of `on_lxmf_delivery` (`web.py` lines 510-534), without its
try/except: convert the message (UTF-8 decode may raise), INSERT a
fresh row (raises on a duplicate hash), then broadcast; a broadcast
failure raises after the earlier sends already happened. -/
def on_lxmf_delivery_body (db : Ledger) (now : Nat) (clients : List Client)
    (m : LXMessage) : Ledger × List (Nat × Event) × Option PyErr :=
  match convert_lxmf_message_to_dict m with
  | none => (db, [], some PyErr.unicodeDecodeError)
  | some d =>
    match db_insert_lxmf_message db now d with
    | none => (db, [], some PyErr.integrityError)
    | some db1 =>
      let (sent, err) := websocket_broadcast clients (.lxmf_delivery d)
      (db1, sent, err.map PyErr.sendError)

/-- `on_lxmf_delivery` (`web.py` lines 509-538): the body wrapped in
`try: ... except Exception: print(...)`, so no exception ever leaves
the handler; effects that already happened stand. -/
def on_lxmf_delivery (db : Ledger) (now : Nat) (clients : List Client)
    (m : LXMessage) : Ledger × List (Nat × Event) × Option PyErr :=
  let r := on_lxmf_delivery_body db now clients m
  (r.1, r.2.1, none)

/-- `on_lxmf_sending_state_updated` (`web.py` lines 541-550): upsert the
message, then broadcast the state-updated event — with no try/except
around either step, so a raised exception leaves the handler. -/
def on_lxmf_sending_state_updated (db : Ledger) (now : Nat) (clients : List Client)
    (m : LXMessage) : Ledger × List (Nat × Event) × Option PyErr :=
  match db_upsert_lxmf_message db now m with
  | none => (db, [], some PyErr.unicodeDecodeError)
  | some db1 =>
    match convert_lxmf_message_to_dict m with
    | none => (db1, [], some PyErr.unicodeDecodeError)
    | some d =>
      let (sent, err) := websocket_broadcast clients (.lxmf_message_state_updated d)
      (db1, sent, err.map PyErr.sendError)

/-- `on_lxmf_sending_failed` (`web.py` lines 553-555): passes straight
through to `on_lxmf_sending_state_updated`. -/
def on_lxmf_sending_failed (db : Ledger) (now : Nat) (clients : List Client)
    (m : LXMessage) : Ledger × List (Nat × Event) × Option PyErr :=
  on_lxmf_sending_state_updated db now clients m

/-- `on_lxmf_announce_received` (`web.py` lines 629-647): decode the
announce app data when present — unguarded, so an invalid byte string
raises before any broadcast — then broadcast the announce event. -/
def on_lxmf_announce_received (clients : List Client) (destination_hash : String)
    (app_data : Option (List Byte)) (now : ℚ) : List (Nat × Event) × Option PyErr :=
  match app_data with
  | none =>
    let (sent, err) := websocket_broadcast clients (.announce destination_hash none now)
    (sent, err.map PyErr.sendError)
  | some bs =>
    match decodeUtf8 bs with
    | none => ([], some PyErr.unicodeDecodeError)
    | some s =>
      let (sent, err) :=
        websocket_broadcast clients (.announce destination_hash (some s) now)
      (sent, err.map PyErr.sendError)

/-- `LXMFAnnounceHandler.received_announce` (`web.py` lines 658-664):
forwards to the registered announce callback inside a bare
`try/except: pass`, so nothing escapes to the RNS transport. -/
def LXMFAnnounceHandler_received_announce (clients : List Client)
    (destination_hash : String) (app_data : Option (List Byte)) (now : ℚ) :
    List (Nat × Event) × Option PyErr :=
  let r := on_lxmf_announce_received clients destination_hash app_data now
  (r.1, none)

/-! ## Broadcast lemmas -/

/-- Full characterization of the broadcast loop: every client before the
first failing one receives the event, nobody after does, and the error
is the first failing client's (or none). -/
theorem websocket_broadcast_eq (clients : List Client) (e : Event) :
    websocket_broadcast clients e =
      ((clients.takeWhile fun c => !c.fails).map (fun c => (c.id, e)),
        ((clients.dropWhile fun c => !c.fails).head?).map Client.id) := by
  induction clients with
  | nil => rfl
  | cons c rest ih =>
    by_cases hc : c.fails
    · simp [websocket_broadcast, hc, List.takeWhile_cons, List.dropWhile_cons]
    · simp [websocket_broadcast, hc, List.takeWhile_cons, List.dropWhile_cons, ih]

/-- When no registered client fails, the broadcast delivers to all of
them in registry order and raises nothing. -/
theorem websocket_broadcast_all_ok (clients : List Client) (e : Event)
    (hok : ∀ c ∈ clients, c.fails = false) :
    websocket_broadcast clients e = (clients.map (fun c => (c.id, e)), none) := by
  rw [websocket_broadcast_eq]
  have ht : clients.takeWhile (fun c => !c.fails) = clients := by
    rw [List.takeWhile_eq_self_iff]
    intro c hc
    simp [hok c hc]
  have hd : clients.dropWhile (fun c => !c.fails) = [] := by
    rw [List.dropWhile_eq_nil_iff]
    intro c hc
    simp [hok c hc]
  rw [ht, hd]
  rfl

/-- C2 counterexample: with registered sessions `0` (whose send raises)
and `1`, broadcasting delivers to no remaining session and the
exception does propagate to the caller — the claimed behaviour fails at
this input. -/
theorem C2_delivery_failure_counterexample :
    ¬ (((1, Event.config "a" "b" "c") ∈
          (websocket_broadcast [⟨0, true⟩, ⟨1, false⟩] (Event.config "a" "b" "c")).1) ∨
        (websocket_broadcast [⟨0, true⟩, ⟨1, false⟩] (Event.config "a" "b" "c")).2 = none) := by
  decide

/-- C2 (amended): a failing send stops the broadcast loop: sessions
before the first failing one (in registry order) receive the event,
every later session receives nothing, and the exception propagates to
the caller of the broadcast. -/
theorem C2_delivery_failure_amended (clients : List Client) (e : Event) :
    websocket_broadcast clients e =
      ((clients.takeWhile fun c => !c.fails).map (fun c => (c.id, e)),
        ((clients.dropWhile fun c => !c.fails).head?).map Client.id) := by
  induction clients with
  | nil => rfl
  | cons c rest ih =>
    by_cases hc : c.fails
    · simp [websocket_broadcast, hc, List.takeWhile_cons, List.dropWhile_cons]
    · simp [websocket_broadcast, hc, List.takeWhile_cons, List.dropWhile_cons, ih]

/-- C9: when no individual delivery fails, every session registered at
the start of the broadcast receives the event (in registry order), no
exception propagates, and a session not in the registry receives
nothing. -/
theorem C9_fanout_completeness (clients : List Client) (e : Event) (d : Client)
    (hok : ∀ c ∈ clients, c.fails = false)
    (hd : d.id ∉ clients.map Client.id) :
    (websocket_broadcast clients e).1 = clients.map (fun c => (c.id, e)) ∧
      (websocket_broadcast clients e).2 = none ∧
      ∀ ev, (d.id, ev) ∉ (websocket_broadcast clients e).1 := by
  have h := websocket_broadcast_all_ok clients e hok
  refine ⟨by rw [h], by rw [h], ?_⟩
  intro ev hmem
  rw [h] at hmem
  simp only [List.mem_map] at hmem
  obtain ⟨c, hc, hce⟩ := hmem
  apply hd
  rw [List.mem_map]
  exact ⟨c, hc, (Prod.mk.injEq _ _ _ _ ▸ hce).1⟩

/-- C9 witness: a two-session registry, both healthy, and a deregistered
third session. -/
theorem C9_fanout_completeness_witness :
    (∀ c ∈ [Client.mk 0 false, Client.mk 1 false], c.fails = false) ∧
      ((2 : Nat) ∉ [Client.mk 0 false, Client.mk 1 false].map Client.id) ∧
      ((websocket_broadcast [Client.mk 0 false, Client.mk 1 false]
            (Event.config "a" "b" "c")).1 =
          [Client.mk 0 false, Client.mk 1 false].map
            (fun c => (c.id, Event.config "a" "b" "c")) ∧
        (websocket_broadcast [Client.mk 0 false, Client.mk 1 false]
              (Event.config "a" "b" "c")).2 = none ∧
        ∀ ev, ((2 : Nat), ev) ∉
          (websocket_broadcast [Client.mk 0 false, Client.mk 1 false]
              (Event.config "a" "b" "c")).1) :=
  ⟨by decide, by decide,
    C9_fanout_completeness [Client.mk 0 false, Client.mk 1 false]
      (Event.config "a" "b" "c") (Client.mk 2 false) (by decide) (by decide)⟩

/-! ## Trace lemmas for the `/ws` route -/

theorem takeWhile_append_of_all {α : Type} {p : α → Bool} {xs ys : List α}
    (h : ∀ x ∈ xs, p x) : (xs ++ ys).takeWhile p = xs ++ ys.takeWhile p := by
  have hx : xs.takeWhile p = xs := List.takeWhile_eq_self_iff.mpr h
  simp [List.takeWhile_append, hx]

theorem filterMap_sentTo_sends_ne (cid : Nat) (l : List Client) (e : Event)
    (hne : ∀ x ∈ l, x.id ≠ cid) :
    ((l.map fun cl => (cl.id, e)).map fun se => Step.sent se.1 se.2).filterMap
        (sentTo cid) = [] := by
  induction l with
  | nil => rfl
  | cons x rest ih =>
    have hx : x.id ≠ cid := hne x (by simp)
    simp only [List.map_cons, List.filterMap_cons, sentTo, if_neg hx]
    exact ih fun y hy => hne y (by simp [hy])

theorem sends_not_input (cid : Nat) (l : List Client) (e : Event) :
    ∀ s ∈ (l.map fun cl => (cl.id, e)).map fun se => Step.sent se.1 se.2,
      (!isInputOf cid s) = true := by
  intro s hs
  simp only [List.mem_map] at hs
  obtain ⟨se, _, rfl⟩ := hs
  simp [isInputOf]

theorem filterMap_sentTo_broadcast_self (cid : Nat) (l : List Client) (c : Client)
    (e : Event) (hne : ∀ x ∈ l, x.id ≠ cid) (hc : c.id = cid) :
    (((l ++ [c]).map fun cl => (cl.id, e)).map fun se => Step.sent se.1 se.2).filterMap
        (sentTo cid) = [e] := by
  simp only [List.map_append, List.filterMap_append]
  rw [filterMap_sentTo_sends_ne cid l e hne]
  simp [sentTo, hc]

/-- C3: a newly registered viewer session receives, before any of its
own input is processed, exactly two events: the config event and then
the known-peers snapshot, in that order. Holds whatever the input
handler does, provided every registered send succeeds and the new
session's transport id is fresh. -/
theorem C3_snapshot_ordering
    (handleInput : ServerState → String → ServerState × List Step)
    (st : ServerState) (c : Client) (inputs : List String)
    (hok : ∀ cl ∈ st.websocket_clients, cl.fails = false)
    (hcok : c.fails = false)
    (hfresh : c.id ∉ st.websocket_clients.map Client.id) :
    ((ws_route handleInput st c inputs).takeWhile fun s => !isInputOf c.id s).filterMap
        (sentTo c.id) =
      [Event.config st.display_name st.identity_hash st.lxmf_address_hash,
        Event.known_peers (known_peers_list st)] := by
  have hok1 : ∀ cl ∈ st.websocket_clients ++ [c], cl.fails = false := by
    intro cl hcl
    rcases List.mem_append.1 hcl with h | h
    · exact hok cl h
    · simp only [List.mem_singleton] at h
      subst h
      exact hcok
  have hne : ∀ x ∈ st.websocket_clients, x.id ≠ c.id := by
    intro x hx h
    exact hfresh (List.mem_map.2 ⟨x, hx, h⟩)
  have hb1 := websocket_broadcast_all_ok (st.websocket_clients ++ [c])
    (Event.config st.display_name st.identity_hash st.lxmf_address_hash) hok1
  have hb2 := websocket_broadcast_all_ok (st.websocket_clients ++ [c])
    (Event.known_peers (known_peers_list st)) hok1
  have hkp : known_peers_list
      { websocket_clients := st.websocket_clients ++ [c], display_name := st.display_name,
        identity_hash := st.identity_hash, lxmf_address_hash := st.lxmf_address_hash,
        known_destinations := st.known_destinations } = known_peers_list st := rfl
  dsimp only [ws_route, send_config_to_websocket_clients,
    send_known_peers_to_websocket_clients]
  rw [hkp, hb1, hb2]
  simp only [Option.isSome_none, Bool.false_eq_true, if_false]
  simp only [List.cons_append, List.append_assoc]
  rw [List.takeWhile_cons_of_pos (by simp [isInputOf])]
  rw [takeWhile_append_of_all (sends_not_input c.id (st.websocket_clients ++ [c])
    (Event.config st.display_name st.identity_hash st.lxmf_address_hash))]
  rw [takeWhile_append_of_all (sends_not_input c.id (st.websocket_clients ++ [c])
    (Event.known_peers (known_peers_list st)))]
  rw [List.filterMap_cons_none (by simp [sentTo]), List.filterMap_append,
    List.filterMap_append]
  rw [filterMap_sentTo_broadcast_self c.id st.websocket_clients c _ hne rfl,
    filterMap_sentTo_broadcast_self c.id st.websocket_clients c _ hne rfl]
  have hloop : (List.takeWhile (fun s => !isInputOf c.id s)
      (ws_loop handleInput
        { websocket_clients := st.websocket_clients ++ [c], display_name := st.display_name,
          identity_hash := st.identity_hash, lxmf_address_hash := st.lxmf_address_hash,
          known_destinations := st.known_destinations } c inputs)).filterMap
      (sentTo c.id) = [] := by
    cases inputs with
    | nil =>
      simp only [ws_loop]
      rw [List.takeWhile_cons_of_pos (by simp [isInputOf])]
      simp [sentTo]
    | cons i rest => simp [ws_loop, isInputOf]
  rw [hloop]
  rfl

/-- C3 witness: one healthy pre-existing session, a fresh healthy new
session, one input frame, and a no-op input handler. -/
theorem C3_snapshot_ordering_witness :
    (∀ cl ∈ [Client.mk 0 false], cl.fails = false) ∧
      (Client.mk 1 false).fails = false ∧
      ((Client.mk 1 false).id ∉ [Client.mk 0 false].map Client.id) ∧
      ((ws_route (fun s _ => (s, []))
            { websocket_clients := [Client.mk 0 false], display_name := "dn",
              identity_hash := "ih", lxmf_address_hash := "ah",
              known_destinations :=
                [{ destination_hash := "kd", last_announce_timestamp := 3,
                   app_data := some [65] }] }
            (Client.mk 1 false) ["x"]).takeWhile fun s =>
            !isInputOf (Client.mk 1 false).id s).filterMap
          (sentTo (Client.mk 1 false).id) =
        [Event.config "dn" "ih" "ah",
          Event.known_peers
            (known_peers_list
              { websocket_clients := [Client.mk 0 false], display_name := "dn",
                identity_hash := "ih", lxmf_address_hash := "ah",
                known_destinations :=
                  [{ destination_hash := "kd", last_announce_timestamp := 3,
                     app_data := some [65] }] })] :=
  ⟨by decide, rfl, by decide,
    C3_snapshot_ordering (fun s _ => (s, []))
      { websocket_clients := [Client.mk 0 false], display_name := "dn",
        identity_hash := "ih", lxmf_address_hash := "ah",
        known_destinations :=
          [{ destination_hash := "kd", last_announce_timestamp := 3,
             app_data := some [65] }] }
      (Client.mk 1 false) ["x"] (by decide) rfl (by decide)⟩

/-! ## Query and endpoint claims -/

/-- C4: on a ledger whose rows are in ascending id order (as SQLite
stores them), the message query returns exactly the rows whose
endpoints are the two given addresses in either direction, still in
ascending id order, i.e. oldest first. -/
theorem C4_query_correctness (rows : List Row) (A B : String)
    (hsorted : rows.Pairwise fun a b => a.id < b.id) :
    (∀ r, r ∈ lxmf_messages_query rows A B ↔
        r ∈ rows ∧ ((r.source_hash = A ∧ r.destination_hash = B) ∨
          (r.source_hash = B ∧ r.destination_hash = A))) ∧
      (lxmf_messages_query rows A B).Pairwise fun a b => a.id < b.id := by
  have hfil : (rows.filter fun r =>
      (r.source_hash == A && r.destination_hash == B) ||
      (r.destination_hash == A && r.source_hash == B)).Pairwise
      fun a b => a.id < b.id := hsorted.filter _
  have hle : (rows.filter fun r =>
      (r.source_hash == A && r.destination_hash == B) ||
      (r.destination_hash == A && r.source_hash == B)).Pairwise
      fun a b => decide (a.id ≤ b.id) = true := by
    refine hfil.imp ?_
    intro a b hab
    simp only [decide_eq_true_eq]
    omega
  have hms := List.mergeSort_of_sorted hle
  unfold lxmf_messages_query
  rw [hms]
  refine ⟨?_, hfil⟩
  intro r
  rw [List.mem_filter]
  simp only [Bool.or_eq_true, Bool.and_eq_true, beq_iff_eq]
  tauto

/-- C4 witness: a ledger holding A→B, B→A and an unrelated C→D. -/
theorem C4_query_correctness_witness :
    ([{ id := 0, hash := "h1", source_hash := "A", destination_hash := "B",
        is_incoming := false, state := "sent", progress := 0, title := [],
        content := [], fields := {}, timestamp := 0, created_at := 0,
        updated_at := 0 },
      { id := 1, hash := "h2", source_hash := "B", destination_hash := "A",
        is_incoming := true, state := "delivered", progress := 0, title := [],
        content := [], fields := {}, timestamp := 0, created_at := 0,
        updated_at := 0 },
      { id := 2, hash := "h3", source_hash := "C", destination_hash := "D",
        is_incoming := false, state := "sent", progress := 0, title := [],
        content := [], fields := {}, timestamp := 0, created_at := 0,
        updated_at := 0 }] : List Row).Pairwise (fun a b => a.id < b.id) ∧
      ((∀ r, r ∈ lxmf_messages_query
            [{ id := 0, hash := "h1", source_hash := "A", destination_hash := "B",
               is_incoming := false, state := "sent", progress := 0, title := [],
               content := [], fields := {}, timestamp := 0, created_at := 0,
               updated_at := 0 },
             { id := 1, hash := "h2", source_hash := "B", destination_hash := "A",
               is_incoming := true, state := "delivered", progress := 0, title := [],
               content := [], fields := {}, timestamp := 0, created_at := 0,
               updated_at := 0 },
             { id := 2, hash := "h3", source_hash := "C", destination_hash := "D",
               is_incoming := false, state := "sent", progress := 0, title := [],
               content := [], fields := {}, timestamp := 0, created_at := 0,
               updated_at := 0 }] "A" "B" ↔
          r ∈ [{ id := 0, hash := "h1", source_hash := "A", destination_hash := "B",
                 is_incoming := false, state := "sent", progress := 0, title := [],
                 content := [], fields := {}, timestamp := 0, created_at := 0,
                 updated_at := 0 },
               { id := 1, hash := "h2", source_hash := "B", destination_hash := "A",
                 is_incoming := true, state := "delivered", progress := 0, title := [],
                 content := [], fields := {}, timestamp := 0, created_at := 0,
                 updated_at := 0 },
               { id := 2, hash := "h3", source_hash := "C", destination_hash := "D",
                 is_incoming := false, state := "sent", progress := 0, title := [],
                 content := [], fields := {}, timestamp := 0, created_at := 0,
                 updated_at := 0 }] ∧
            ((r.source_hash = "A" ∧ r.destination_hash = "B") ∨
              (r.source_hash = "B" ∧ r.destination_hash = "A"))) ∧
        (lxmf_messages_query
            [{ id := 0, hash := "h1", source_hash := "A", destination_hash := "B",
               is_incoming := false, state := "sent", progress := 0, title := [],
               content := [], fields := {}, timestamp := 0, created_at := 0,
               updated_at := 0 },
             { id := 1, hash := "h2", source_hash := "B", destination_hash := "A",
               is_incoming := true, state := "delivered", progress := 0, title := [],
               content := [], fields := {}, timestamp := 0, created_at := 0,
               updated_at := 0 },
             { id := 2, hash := "h3", source_hash := "C", destination_hash := "D",
               is_incoming := false, state := "sent", progress := 0, title := [],
               content := [], fields := {}, timestamp := 0, created_at := 0,
               updated_at := 0 }] "A" "B").Pairwise fun a b => a.id < b.id) := by
  refine ⟨?_, ?_⟩
  · decide
  · exact C4_query_correctness _ "A" "B" (by decide)

/-- C5: when no identity for the destination is cached at the moment the
download starts, the job (page or file alike) fires its one path
request and then transitions immediately to failed with reason
`"identity not found"`: no link is created, no wait happens, and
nothing is retried. -/
theorem C5_download_identity_not_found (kind : DownloadKind)
    (recallIdentity : String → Option Nat) (dest : String)
    (h : recallIdentity dest = none) :
    NomadnetDownloader_download kind recallIdentity dest =
      [DownloadAction.request_path dest,
        DownloadAction.failure_callback kind "identity not found"] := by
  unfold NomadnetDownloader_download
  rw [h]

/-- C5 witness: an empty identity cache and a page download. -/
theorem C5_download_identity_not_found_witness :
    ((fun _ : String => (none : Option Nat)) "aa" = none) ∧
      NomadnetDownloader_download DownloadKind.page
          (fun _ : String => (none : Option Nat)) "aa" =
        [DownloadAction.request_path "aa",
          DownloadAction.failure_callback DownloadKind.page "identity not found"] :=
  ⟨rfl, C5_download_identity_not_found DownloadKind.page _ "aa" rfl⟩

/-- C10: a request to the message-query endpoint missing `source_hash`
or `destination_hash` is answered with HTTP 422 and a message naming
the missing parameter; no SELECT runs, no messages are returned, and
the ledger is unchanged. -/
theorem C10_missing_param_422 (source_hash destination_hash : Option String)
    (rows : List Row) (h : source_hash = none ∨ destination_hash = none) :
    (api_lxmf_messages source_hash destination_hash rows).1.status = 422 ∧
      (source_hash = none →
        (api_lxmf_messages source_hash destination_hash rows).1.message =
          some "source_hash is required") ∧
      (∀ s, source_hash = some s →
        (api_lxmf_messages source_hash destination_hash rows).1.message =
          some "destination_hash is required") ∧
      (api_lxmf_messages source_hash destination_hash rows).1.lxmf_messages = none ∧
      (api_lxmf_messages source_hash destination_hash rows).2.1 = rows ∧
      (api_lxmf_messages source_hash destination_hash rows).2.2 = 0 := by
  cases source_hash with
  | none => simp [api_lxmf_messages]
  | some s =>
    cases destination_hash with
    | none => simp [api_lxmf_messages]
    | some d => simp at h

/-- C10 witness: a request carrying only `source_hash`. -/
theorem C10_missing_param_422_witness :
    ((some "A" : Option String) = none ∨ (none : Option String) = none) ∧
      ((api_lxmf_messages (some "A") none []).1.status = 422 ∧
        ((some "A" : Option String) = none →
          (api_lxmf_messages (some "A") none []).1.message =
            some "source_hash is required") ∧
        (∀ s, (some "A" : Option String) = some s →
          (api_lxmf_messages (some "A") none []).1.message =
            some "destination_hash is required") ∧
        (api_lxmf_messages (some "A") none []).1.lxmf_messages = none ∧
        (api_lxmf_messages (some "A") none []).2.1 = ([] : List Row) ∧
        (api_lxmf_messages (some "A") none []).2.2 = 0) :=
  ⟨Or.inr rfl, C10_missing_param_422 (some "A") none [] (Or.inr rfl)⟩

/-! ## Message conversion lemmas -/

theorem convert_some_proj (m : LXMessage) (d : MessageDict)
    (hc : convert_lxmf_message_to_dict m = some d) :
    d.hash = m.hash ∧ d.progress = pyRound2 (m.progress * 100) := by
  unfold convert_lxmf_message_to_dict at hc
  split at hc
  · cases hc
    exact ⟨rfl, rfl⟩
  · cases hc

/-- C8: the message record rendered for viewers carries as progress the
stored 0-1 fraction times 100 rounded to two decimal places; in
particular a stored progress of 0.4567 renders as 45.67. -/
theorem C8_progress_rendering (m : LXMessage) (d : MessageDict)
    (hc : convert_lxmf_message_to_dict m = some d) :
    d.progress = pyRound2 (m.progress * 100) ∧
      (m.progress = 4567/10000 → d.progress = 4567/100) := by
  have hp := (convert_some_proj m d hc).2
  refine ⟨hp, ?_⟩
  intro h4567
  rw [hp, h4567]
  unfold pyRound2 roundHalfEven
  norm_num

/-- C8 witness: a concrete delivered message with stored progress
fraction 0.4567 renders with display progress 45.67. -/
theorem C8_progress_rendering_witness :
    convert_lxmf_message_to_dict
        { hash := "abcd", source_hash := "ee", destination_hash := "ff",
          incoming := true, state := 8, progress := 4567/10000, title := [],
          content := [], fields := [], timestamp := 0 } =
      some
        { hash := "abcd", source_hash := "ee", destination_hash := "ff",
          is_incoming := true, state := "delivered",
          progress := pyRound2 ((4567/10000 : ℚ) * 100), title := [],
          content := [], fields := {}, timestamp := 0 } ∧
      (pyRound2 ((4567/10000 : ℚ) * 100) : ℚ) = 4567/100 :=
  ⟨rfl,
    (C8_progress_rendering
        { hash := "abcd", source_hash := "ee", destination_hash := "ff",
          incoming := true, state := 8, progress := 4567/10000, title := [],
          content := [], fields := [], timestamp := 0 }
        { hash := "abcd", source_hash := "ee", destination_hash := "ff",
          is_incoming := true, state := "delivered",
          progress := pyRound2 ((4567/10000 : ℚ) * 100), title := [],
          content := [], fields := {}, timestamp := 0 } rfl).2 rfl⟩

/-! ## Upsert lemmas -/

theorem db_upsert_result (db : Ledger) (now : Nat) (m : LXMessage) (d : MessageDict)
    (hc : convert_lxmf_message_to_dict m = some d) :
    ∃ db', db_upsert_lxmf_message db now m = some db' ∧
      db'.rows.countP (fun r => r.hash == d.hash) =
        (if db.rows.any (fun r => r.hash == d.hash) then
          db.rows.countP (fun r => r.hash == d.hash) else 1) ∧
      ∀ r ∈ db'.rows, r.hash = d.hash →
        r.state = d.state ∧ r.progress = d.progress ∧ r.title = d.title ∧
          r.content = d.content ∧ r.fields = d.fields ∧ r.timestamp = d.timestamp ∧
          r.updated_at = now := by
  unfold db_upsert_lxmf_message
  rw [hc]
  simp only [Option.map_some']
  refine ⟨_, rfl, ?_, ?_⟩
  · by_cases hany : db.rows.any (fun r => r.hash == d.hash)
    · simp only [hany, if_true, if_pos]
      rw [List.countP_map]
      refine List.countP_congr ?_
      intro r _
      by_cases hr : r.hash == d.hash
      · simp [Function.comp, hr]
      · simp [Function.comp, hr]
    · simp only [hany, if_false, Bool.false_eq_true]
      rw [List.countP_append]
      have h0 : db.rows.countP (fun r => r.hash == d.hash) = 0 := by
        rw [List.countP_eq_zero]
        intro r hr
        exact List.any_eq_false.mp (Bool.eq_false_iff.mpr hany) r hr
      rw [h0]
      simp
  · by_cases hany : db.rows.any (fun r => r.hash == d.hash)
    · simp only [hany, if_true, if_pos]
      intro r hr hrh
      rw [List.mem_map] at hr
      obtain ⟨r0, hr0, rfl⟩ := hr
      by_cases h0 : r0.hash == d.hash
      · simp [h0]
      · simp only [h0, if_false, Bool.false_eq_true] at hrh ⊢
        exact absurd hrh (by simpa using h0)
    · simp only [hany, if_false, Bool.false_eq_true]
      intro r hr hrh
      rcases List.mem_append.1 hr with h | h
      · exfalso
        have := List.any_eq_false.mp (Bool.eq_false_iff.mpr hany) r h
        simp only [beq_iff_eq] at this
        exact this hrh
      · simp only [List.mem_singleton] at h
        subst h
        exact ⟨rfl, rfl, rfl, rfl, rfl, rfl, rfl⟩

/-- C1: upserting two messages with the same hash — the ledger holding
at most one row with that hash, as the unique constraint guarantees —
leaves exactly one row with that hash, and its mutable fields (state,
progress, title, content, fields, timestamp, updated_at) are those of
the second call. -/
theorem C1_upsert_idempotent (db : Ledger) (now1 now2 : Nat) (m1 m2 : LXMessage)
    (d2 : MessageDict)
    (hc1 : (convert_lxmf_message_to_dict m1).isSome)
    (hc2 : convert_lxmf_message_to_dict m2 = some d2)
    (hh : m1.hash = m2.hash)
    (hinv : db.rows.countP (fun r => r.hash == m2.hash) ≤ 1) :
    ∃ db1 db2,
      db_upsert_lxmf_message db now1 m1 = some db1 ∧
        db_upsert_lxmf_message db1 now2 m2 = some db2 ∧
        db2.rows.countP (fun r => r.hash == m2.hash) = 1 ∧
        ∀ r ∈ db2.rows, r.hash = m2.hash →
          r.state = d2.state ∧ r.progress = d2.progress ∧ r.title = d2.title ∧
            r.content = d2.content ∧ r.fields = d2.fields ∧
            r.timestamp = d2.timestamp ∧ r.updated_at = now2 := by
  obtain ⟨d1, hd1⟩ := Option.isSome_iff_exists.mp hc1
  have h1hash : d1.hash = m2.hash := (convert_some_proj m1 d1 hd1).1.trans hh
  have h2hash : d2.hash = m2.hash := (convert_some_proj m2 d2 hc2).1
  obtain ⟨db1, hu1, hcount1, _⟩ := db_upsert_result db now1 m1 d1 hd1
  obtain ⟨db2, hu2, hcount2, hfields2⟩ := db_upsert_result db1 now2 m2 d2 hc2
  rw [h1hash] at hcount1
  rw [h2hash] at hcount2
  have hc1eq : db1.rows.countP (fun r => r.hash == m2.hash) = 1 := by
    rw [hcount1]
    split
    next htrue =>
      have hpos : 0 < db.rows.countP (fun r => r.hash == m2.hash) :=
        List.countP_pos_iff.mpr (List.any_eq_true.mp htrue)
      omega
    next => rfl
  refine ⟨db1, db2, hu1, hu2, ?_, ?_⟩
  · rw [hcount2]
    split
    next => exact hc1eq
    next => rfl
  · intro r hr hrh
    exact hfields2 r hr (hrh.trans h2hash.symm)

/-- C1 witness: the same hash upserted twice into an empty ledger, the
second call carrying a different state and progress. -/
theorem C1_upsert_idempotent_witness :
    (convert_lxmf_message_to_dict
        { hash := "abcd", source_hash := "s", destination_hash := "t",
          incoming := false, state := 2, progress := 0, title := [0x68],
          content := [], fields := [], timestamp := 0 }).isSome = true ∧
      convert_lxmf_message_to_dict
          { hash := "abcd", source_hash := "s", destination_hash := "t",
            incoming := false, state := 8, progress := 1/2, title := [0x68],
            content := [], fields := [], timestamp := 0 } =
        some
          { hash := "abcd", source_hash := "s", destination_hash := "t",
            is_incoming := false, state := "delivered",
            progress := pyRound2 ((1/2 : ℚ) * 100), title := [0x68],
            content := [], fields := {}, timestamp := 0 } ∧
      (Ledger.mk [] 0).rows.countP (fun r => r.hash == "abcd") ≤ 1 ∧
      ∃ db1 db2,
        db_upsert_lxmf_message (Ledger.mk [] 0) 5
            { hash := "abcd", source_hash := "s", destination_hash := "t",
              incoming := false, state := 2, progress := 0, title := [0x68],
              content := [], fields := [], timestamp := 0 } = some db1 ∧
          db_upsert_lxmf_message db1 6
              { hash := "abcd", source_hash := "s", destination_hash := "t",
                incoming := false, state := 8, progress := 1/2, title := [0x68],
                content := [], fields := [], timestamp := 0 } = some db2 ∧
          db2.rows.countP (fun r => r.hash == "abcd") = 1 ∧
          ∀ r ∈ db2.rows, r.hash = "abcd" →
            r.state = "delivered" ∧ r.progress = pyRound2 ((1/2 : ℚ) * 100) ∧
              r.title = [0x68] ∧ r.content = [] ∧
              r.fields = ({} : FieldsDict) ∧ r.timestamp = 0 ∧ r.updated_at = 6 :=
  ⟨rfl, rfl, by decide,
    C1_upsert_idempotent (Ledger.mk [] 0) 5 6
      { hash := "abcd", source_hash := "s", destination_hash := "t",
        incoming := false, state := 2, progress := 0, title := [0x68],
        content := [], fields := [], timestamp := 0 }
      { hash := "abcd", source_hash := "s", destination_hash := "t",
        incoming := false, state := 8, progress := 1/2, title := [0x68],
        content := [], fields := [], timestamp := 0 }
      { hash := "abcd", source_hash := "s", destination_hash := "t",
        is_incoming := false, state := "delivered",
        progress := pyRound2 ((1/2 : ℚ) * 100), title := [0x68],
        content := [], fields := {}, timestamp := 0 }
      rfl rfl rfl (by decide)⟩

/-! ## Callback boundary claims -/

/-- C6 counterexample: a state-updated callback for a perfectly valid
message, with one registered session whose send raises, lets the
exception escape the handler into the LXMF router's invoking context —
`on_lxmf_sending_state_updated` has no try/except. -/
theorem C6_callback_exception_counterexample :
    (on_lxmf_sending_state_updated (Ledger.mk [] 0) 0 [Client.mk 0 true]
        { hash := "abcd", source_hash := "s", destination_hash := "t",
          incoming := false, state := 2, progress := 0, title := [],
          content := [], fields := [], timestamp := 0 }).2.2 ≠ none := by
  intro h
  exact Option.noConfusion
    ((rfl :
      (on_lxmf_sending_state_updated (Ledger.mk [] 0) 0 [Client.mk 0 true]
          { hash := "abcd", source_hash := "s", destination_hash := "t",
            incoming := false, state := 2, progress := 0, title := [],
            content := [], fields := [], timestamp := 0 }).2.2 =
        some (PyErr.sendError 0)).symm.trans h)

/-- C6 (amended): the inbound delivery handler and the announce wrapper
are guarded boundaries — no exception leaves them, whatever the input —
but the outbound state-updated/failed handler is not: a broadcast
failure inside it escapes to the network layer. -/
theorem C6_callback_exception_amended :
    (∀ (db : Ledger) (now : Nat) (clients : List Client) (m : LXMessage),
        (on_lxmf_delivery db now clients m).2.2 = none) ∧
      (∀ (clients : List Client) (dest : String) (app_data : Option (List Byte))
          (now : ℚ),
        (LXMFAnnounceHandler_received_announce clients dest app_data now).2 = none) ∧
      (∀ (db : Ledger) (now : Nat) (clients : List Client) (m : LXMessage)
          (d : MessageDict) (i : Nat),
        convert_lxmf_message_to_dict m = some d →
        (websocket_broadcast clients (Event.lxmf_message_state_updated d)).2 = some i →
        (on_lxmf_sending_state_updated db now clients m).2.2 =
          some (PyErr.sendError i)) := by
  refine ⟨fun db now clients m => rfl, fun clients dest app_data now => rfl, ?_⟩
  intro db now clients m d i hc hb
  unfold on_lxmf_sending_state_updated db_upsert_lxmf_message
  rw [hc]
  simp only [Option.map_some']
  rcases hw : websocket_broadcast clients (Event.lxmf_message_state_updated d) with
    ⟨sent, err⟩
  rw [hw] at hb
  simp only at hb
  simp [hb]

/-- C6 witness: the guarded handlers swallow the same failing-session
fault that escapes the unguarded state-updated handler. -/
theorem C6_callback_exception_amended_witness :
    (on_lxmf_delivery (Ledger.mk [] 0) 0 [Client.mk 0 true]
        { hash := "abcd", source_hash := "s", destination_hash := "t",
          incoming := false, state := 2, progress := 0, title := [],
          content := [], fields := [], timestamp := 0 }).2.2 = none ∧
      (LXMFAnnounceHandler_received_announce [Client.mk 0 true] "cd"
          (some [0xFF]) 0).2 = none ∧
      (on_lxmf_sending_state_updated (Ledger.mk [] 0) 0 [Client.mk 0 true]
          { hash := "abcd", source_hash := "s", destination_hash := "t",
            incoming := false, state := 2, progress := 0, title := [],
            content := [], fields := [], timestamp := 0 }).2.2 =
        some (PyErr.sendError 0) :=
  ⟨C6_callback_exception_amended.1 (Ledger.mk [] 0) 0 [Client.mk 0 true]
      { hash := "abcd", source_hash := "s", destination_hash := "t",
        incoming := false, state := 2, progress := 0, title := [],
        content := [], fields := [], timestamp := 0 },
    C6_callback_exception_amended.2.1 [Client.mk 0 true] "cd" (some [0xFF]) 0,
    C6_callback_exception_amended.2.2 (Ledger.mk [] 0) 0 [Client.mk 0 true]
      { hash := "abcd", source_hash := "s", destination_hash := "t",
        incoming := false, state := 2, progress := 0, title := [],
        content := [], fields := [], timestamp := 0 }
      { hash := "abcd", source_hash := "s", destination_hash := "t",
        is_incoming := false, state := "sending",
        progress := pyRound2 ((0 : ℚ) * 100), title := [],
        content := [], fields := {}, timestamp := 0 }
      0 rfl rfl⟩

/-- C7 counterexample: an announce whose app_data is not valid UTF-8,
with one healthy registered session: the decode raises before the
broadcast, the wrapper swallows it, and the announce event is dropped
entirely instead of being delivered with a null field. -/
theorem C7_decode_failure_counterexample :
    LXMFAnnounceHandler_received_announce [Client.mk 0 false] "1234"
        (some [0xFF]) 7 = ([], none) := by
  rfl

/-- C7 (amended): in the known-peers snapshot a peer label that fails to
decode becomes null and the event is still delivered to every
registered session; in the announce path, however, a failing app_data
decode aborts the handler before the broadcast, so the announce event
is dropped (the wrapper keeps the exception from the network layer). -/
theorem C7_decode_failure_amended :
    (∀ st : ServerState, (∀ c ∈ st.websocket_clients, c.fails = false) →
        send_known_peers_to_websocket_clients st =
          (st.websocket_clients.map fun c =>
            (c.id, Event.known_peers (known_peers_list st)), none)) ∧
      (∀ st : ServerState, ∀ kd ∈ st.known_destinations,
        ({ destination_hash := kd.destination_hash,
           app_data := convert_app_data_to_string kd.app_data,
           last_announce_timestamp := kd.last_announce_timestamp } :
          KnownPeerDict) ∈ known_peers_list st) ∧
      (∀ bs : List Byte, decodeUtf8 bs = none →
        convert_app_data_to_string (some bs) = none) ∧
      (∀ (clients : List Client) (dest : String) (bs : List Byte) (now : ℚ),
        decodeUtf8 bs = none →
        LXMFAnnounceHandler_received_announce clients dest (some bs) now =
          ([], none)) := by
  refine ⟨?_, ?_, ?_, ?_⟩
  · intro st hok
    exact websocket_broadcast_all_ok st.websocket_clients _ hok
  · intro st kd hkd
    exact List.mem_map.2 ⟨kd, hkd, rfl⟩
  · intro bs h
    simp [convert_app_data_to_string, h]
  · intro clients dest bs now h
    unfold LXMFAnnounceHandler_received_announce on_lxmf_announce_received
    dsimp only
    rw [h]

/-- C7 witness: a known peer whose announce label is the invalid byte
0xFF, one healthy session. -/
theorem C7_decode_failure_amended_witness :
    (∀ c ∈ [Client.mk 0 false], c.fails = false) ∧
      send_known_peers_to_websocket_clients
          { websocket_clients := [Client.mk 0 false], display_name := "dn",
            identity_hash := "ih", lxmf_address_hash := "ah",
            known_destinations :=
              [{ destination_hash := "1234", last_announce_timestamp := 5,
                 app_data := some [0xFF] }] } =
        ([Client.mk 0 false].map fun c =>
          (c.id, Event.known_peers
            (known_peers_list
              { websocket_clients := [Client.mk 0 false], display_name := "dn",
                identity_hash := "ih", lxmf_address_hash := "ah",
                known_destinations :=
                  [{ destination_hash := "1234", last_announce_timestamp := 5,
                     app_data := some [0xFF] }] })), none) ∧
      decodeUtf8 [0xFF] = none ∧
      convert_app_data_to_string (some [0xFF]) = none ∧
      LXMFAnnounceHandler_received_announce [Client.mk 0 false] "1234"
          (some [0xFF]) 5 = ([], none) :=
  ⟨by decide,
    C7_decode_failure_amended.1
      { websocket_clients := [Client.mk 0 false], display_name := "dn",
        identity_hash := "ih", lxmf_address_hash := "ah",
        known_destinations :=
          [{ destination_hash := "1234", last_announce_timestamp := 5,
             app_data := some [0xFF] }] } (by decide),
    rfl,
    C7_decode_failure_amended.2.2.1 [0xFF] rfl,
    C7_decode_failure_amended.2.2.2 [Client.mk 0 false] "1234" [0xFF] 5 rfl⟩
